import Mathlib

/-!
Verification of the gameplay simulation core of `tennis_rounds` (`src/player.rs`).

The `f32` arithmetic of the source is embedded as real-number arithmetic (`ℝ`);
2D vectors (`glam::Vec2`) become pairs of reals.  Each Bevy system of
`player.rs` is embedded as a per-player (or per-event) step function over an
explicit state record; the ECS query filters (such as `Without<Inactive>`)
become explicit guards, and fallible ECS lookups (`Query::get`, event lookups)
become `Option` inputs.  A Rust `unwrap()` on a missing value, which panics,
is embedded as `Except.error`.

Items from modules of the repository that are not part of the given source
(`ball.rs`, `level.rs`, `score.rs`, `player_action.rs`, `animation.rs`) are
modelled from the spec and carry a doc comment saying so.
-/

open scoped Classical

/-! ## Computable prelude: ids, regions, statuses -/

/-- Whether a player id denotes the left player, modelling
`is_left_player_id` from `player.rs`. -/
def is_left_player_id (id : ℕ) : Bool := id == 1

/-- The player-animation tag written by the systems of `player.rs`
(`PlayerAnimation` is declared in `player_animation.rs`, outside the given
source; the variants are exactly the ones `player.rs` assigns). -/
inductive PlayerAnimation
  | Idle | Walking | Running | Swinging | Landing
  deriving DecidableEq

/-- Modelled from the spec: `CourtRegion` lives in `level.rs`, outside the
given source.  The court is subdivided into four serve regions plus an
out-of-bounds region; left regions belong to player 1. -/
inductive CourtRegion
  | topLeft | bottomLeft | topRight | bottomRight | outOfBounds
  deriving DecidableEq

/-- Modelled from the spec: whether the region is on the left half. -/
def CourtRegion.is_left : CourtRegion → Bool
  | .topLeft => true
  | .bottomLeft => true
  | _ => false

/-- Modelled from the spec: whether the region is out of bounds. -/
def CourtRegion.is_out_of_bounds : CourtRegion → Bool
  | .outOfBounds => true
  | _ => false

/-- Modelled from the spec: the player owning serves from this region (the
left player is id 1, the right player id 2). -/
def CourtRegion.get_player_id (r : CourtRegion) : ℕ :=
  if r.is_left then 1 else 2

/-- Modelled from the spec: the ball status (`ball.rs`, outside the given
source), "a rally/serve/fault status tagged with the responsible or at-fault
player id"; a serve also carries its region and the carried fault count. -/
inductive BallStatus
  | serve (region : CourtRegion) (faultCount : ℕ) (playerId : ℕ)
  | fault (count : ℕ) (playerId : ℕ)
  | rally (playerId : ℕ)
  | used
  deriving DecidableEq

/-- The `BallHitEvt` notification. -/
structure BallHitEvt where
  ball_e : ℕ
  player_id : ℕ
  deriving DecidableEq

noncomputable section

/-! ## 2D vector helpers (glam `Vec2` over `ℝ`) -/

/-- A 2D vector, modelling `glam::Vec2` with real coordinates. -/
abbrev Vec2 := ℝ × ℝ

/-- Componentwise vector addition. -/
def vadd (a b : Vec2) : Vec2 := (a.1 + b.1, a.2 + b.2)

/-- Componentwise vector subtraction. -/
def vsub (a b : Vec2) : Vec2 := (a.1 - b.1, a.2 - b.2)

/-- Scalar multiple of a vector. -/
def vscale (k : ℝ) (a : Vec2) : Vec2 := (k * a.1, k * a.2)

/-- Vector negation, modelling `-v`. -/
def vneg (a : Vec2) : Vec2 := (-a.1, -a.2)

/-- Euclidean length, modelling `Vec2::length`. -/
def vlen (a : Vec2) : ℝ := Real.sqrt (a.1 ^ 2 + a.2 ^ 2)

/-- Componentwise clamp, modelling `Vec2::clamp` (`self.max(min).min(max)`). -/
def vclamp (v lo hi : Vec2) : Vec2 :=
  (min (max v.1 lo.1) hi.1, min (max v.2 lo.2) hi.2)

/-- Scalar clamp, modelling `f32::clamp`. -/
def rclamp (x lo hi : ℝ) : ℝ := min (max x lo) hi

/-- Componentwise linear interpolation, modelling `Vec3::lerp` restricted to
the plane: `a + (b - a) * t`. -/
def vlerp (a b : Vec2) (t : ℝ) : Vec2 :=
  (a.1 + (b.1 - a.1) * t, a.2 + (b.2 - a.2) * t)

/-- Scalar linear interpolation `a + t * (b - a)`, modelling the
`interpolation` crate's `Lerp` for `f32` used as `a.lerp(&b, &t)`. -/
def lerp (a b t : ℝ) : ℝ := a + t * (b - a)

/-- Normalisation returning the zero vector on zero input, modelling
`Vec2::normalize_or_zero`. -/
def normalize_or_zero (v : Vec2) : Vec2 :=
  if vlen v = 0 then ((0 : ℝ), (0 : ℝ)) else vscale (vlen v)⁻¹ v

/-- Plain normalisation `v / |v|`, modelling `Vec2::normalize`.  On zero input
the source would produce non-finite floats; the model returns the zero vector
(no claim depends on that case). -/
def vnormalize (v : Vec2) : Vec2 := vscale (vlen v)⁻¹ v

/-- Modelled from the spec: `inverse_lerp` lives in `src/animation.rs`, which
is not part of the given source.  The spec describes its uses as producing
normalized fractions ("swing charge strength (normalized 0..1)",
"net speed normalized against min/max bounds"), so it is modelled as the
clamped inverse linear interpolation. -/
def inverse_lerp (a b x : ℝ) : ℝ := rclamp ((x - a) / (b - a)) 0 1

/-! ## Angle helpers (glam `Quat` restricted to rotations about `Z`)

Every rotation appearing in `player.rs` is a rotation about the `Z` axis, so a
quaternion is embedded as its signed rotation angle about `+Z`. -/

/-- Signed planar angle from `v` to `w`, modelling `Vec2::angle_between`
(`atan2` of perp-dot and dot).  `Complex.arg ⟨x, y⟩` is exactly `atan2 y x`. -/
def angle_between (v w : Vec2) : ℝ :=
  Complex.arg ⟨v.1 * w.1 + v.2 * w.2, v.1 * w.2 - v.2 * w.1⟩

/-- Absolute angle between two `Z`-rotations, modelling `Quat::angle_between`
(`2 * acos(min |q1 ⬝ q2| 1)`; for `Z`-rotations by `a` and `b` the quaternion
dot product is `cos ((a - b) / 2)`). -/
def quat_angle_between (a b : ℝ) : ℝ :=
  2 * Real.arccos (min |Real.cos ((a - b) / 2)| 1)

/-- The `z` component of the `XYZ` Euler decomposition of a `Z`-rotation by
`a`, i.e. `a` wrapped into `(-π, π]`, modelling `Quat::to_euler(XYZ).2`. -/
def euler_z (a : ℝ) : ℝ := Complex.arg ⟨Real.cos a, Real.sin a⟩

/-- Image of a vector under the `Z`-rotation by angle `a`, used to model
`rotation * Vec3::Y` followed by `truncate`. -/
def rot_vec (a : ℝ) (v : Vec2) : Vec2 :=
  (v.1 * Real.cos a - v.2 * Real.sin a, v.1 * Real.sin a + v.2 * Real.cos a)

/-! ## Constants from `player.rs` -/

def PLAYER_SIZE : ℝ := 56
def PLAYER_GRAVITY : ℝ := -3150
def PLAYER_JUMP_VEL_BASE : ℝ := 400
def PLAYER_JUMP_HEIGHT_MIN : ℝ := 60
def AIM_RING_ROTATION_DEG : ℝ := 50
def AIM_RING_RADIUS : ℝ := 115
def PLAYER_SWING_DISTANCE : ℝ := 50

/-- Modelled from the spec: the ball constants (`BALL_MIN_SPEED`,
`BALL_MAX_SPEED`, `BALL_MIN_HEIGHT`, `BALL_MAX_HEIGHT`, `BALL_GRAVITY`,
`BALL_MIN_DISTANCE`, `BALL_SIZE`, `TARGET_X_OFFSET`) are declared in
`ball.rs`, which is not part of the given source.  The spec names them but
gives no values, so they are kept abstract as a parameter record. -/
structure BallConsts where
  ballMinSpeed : ℝ
  ballMaxSpeed : ℝ
  ballMinHeight : ℝ
  ballMaxHeight : ℝ
  ballGravity : ℝ
  ballMinDistance : ℝ
  ballSize : ℝ
  targetXOffset : ℝ

/-! ## Shared data model -/

/-- Modelled from the spec: `CourtSettings` lives in `level.rs` (not in the
given source); `player.rs` reads its `view` extents and `right` bound. -/
structure CourtSettings where
  view : Vec2
  right : ℝ

/-- Modelled from the spec: the swing action status
(`Idle → Charging(strength) → Active(strength) → Cooldown`), declared in
`player_action.rs` which is not part of the given source; strength is the
charge strength payload. -/
inductive PlayerActionStatus
  | idle
  | charging (strength : ℝ)
  | active (strength : ℝ)
  | cooldown

/-- Whether the status is `Charging(_)`, modelling
`matches!(status, PlayerActionStatus::Charging(_))`. -/
def PlayerActionStatus.isCharging : PlayerActionStatus → Bool
  | .charging _ => true
  | _ => false

/-- The `PlayerSwing` component.  The Bevy `Timer` internal state is reduced
to the single observation `player.rs` makes of it (`timer.finished()`). -/
structure PlayerSwing where
  status : PlayerActionStatus
  duration_sec : ℝ
  cooldown_sec : ℝ
  timerFinished : Bool

/-- Start the swing cooldown: status becomes `Cooldown` and the timer is
restarted from `cooldown_sec` (hence not finished), modelling
`PlayerSwing::start_cooldown`. -/
def PlayerSwing.start_cooldown (s : PlayerSwing) : PlayerSwing :=
  { s with status := .cooldown, timerFinished := false }

/-- The side sign of a player (`-1` for the left player, `1` for the right),
modelling `Player::get_sign`. -/
def player_sign (id : ℕ) : ℝ := if is_left_player_id id then -1 else 1

/-! ## Movement controller (`move_player`) -/

/-- The `PlayerMovement` component. -/
structure PlayerMovement where
  speed : ℝ
  charging_speed : ℝ
  easing_time : ℝ
  time_to_max_speed : ℝ
  raw_dir : Vec2
  last_non_zero_raw_dir : Vec2

/-- The per-player state read and written by `move_player`: the movement
component, the player transform translation (its `xy` part) and the animation
tag. -/
structure MoveState where
  movement : PlayerMovement
  pos : Vec2
  anim : PlayerAnimation

/-- The updated easing accumulator of `move_player`: increased while input is
held, decreased while released, clamped to `[0, time_to_max_speed]`. -/
def move_player_easing_time (dt : ℝ) (pm : PlayerMovement) : ℝ :=
  rclamp (pm.easing_time + (if pm.raw_dir = (((0 : ℝ), (0 : ℝ)) : Vec2) then -dt else dt))
    0 pm.time_to_max_speed

/-- The eased, not yet clamped position computed by `move_player`: the naive
next position interpolated from the current one by the easing fraction. -/
def move_player_unclamped (dt : ℝ) (charging : Bool) (pm : PlayerMovement)
    (pos : Vec2) : Vec2 :=
  let speed := if charging then pm.charging_speed else pm.speed
  let dir := if pm.raw_dir ≠ (((0 : ℝ), (0 : ℝ)) : Vec2) then pm.raw_dir
    else pm.last_non_zero_raw_dir
  let final_pos := vadd pos (vscale dt (vscale speed dir))
  let ease_t := inverse_lerp 0 pm.time_to_max_speed (move_player_easing_time dt pm)
  vlerp pos final_pos ease_t

/-- The side-specific play-area size (`player_area_size` in `move_player`):
the half court width extended by the player size and shifted by the live net
offset, asymmetric by side. -/
def player_area_size (net : ℝ) (court : CourtSettings) (isLeft : Bool) : Vec2 :=
  let court_w_half := court.view.1 / 2 + PLAYER_SIZE
  if isLeft then (court_w_half + net, court.view.2) else (court_w_half - net, court.view.2)

/-- The side-specific play-area centre (`player_area_pos` in `move_player`). -/
def player_area_pos (net : ℝ) (court : CourtSettings) (isLeft : Bool) : Vec2 :=
  let pos_offset : Vec2 := ((player_area_size net court isLeft).1 / 2, 0)
  if isLeft then vsub (vscale net ((1 : ℝ), (0 : ℝ))) pos_offset
  else vadd (vscale net ((1 : ℝ), (0 : ℝ))) pos_offset

/-- Half extents of the clamp rectangle (`half_bounds` in `move_player`). -/
def player_half_bounds (net : ℝ) (court : CourtSettings) (isLeft : Bool) : Vec2 :=
  vsub (vscale (1 / 2) (player_area_size net court isLeft))
    ((PLAYER_SIZE / 2, PLAYER_SIZE / 2))

/-- Bottom-left corner of the clamp rectangle (`area_btm_left`). -/
def player_area_btm_left (net : ℝ) (court : CourtSettings) (isLeft : Bool) : Vec2 :=
  vsub (player_area_pos net court isLeft) (player_half_bounds net court isLeft)

/-- Top-right corner of the clamp rectangle (`area_top_right`). -/
def player_area_top_right (net : ℝ) (court : CourtSettings) (isLeft : Bool) : Vec2 :=
  vadd (player_area_pos net court isLeft) (player_half_bounds net court isLeft)

/-- One `move_player` step for one player.  `id` is the player id (left is
id 1), `swingStatus` the current swing status (movement slows while
charging), `dt` the scaled delta seconds, `net` the live net offset.  The
animation guards of the source only avoid redundant writes, so the resulting
animation value is expressed directly. -/
def move_player (dt net : ℝ) (court : CourtSettings) (id : ℕ)
    (swingStatus : PlayerActionStatus) (s : MoveState) : MoveState :=
  let charging := swingStatus.isCharging
  let isLeft := is_left_player_id id
  let fp0 := move_player_unclamped dt charging s.movement s.pos
  let final_pos := vclamp fp0 (player_area_btm_left net court isLeft)
    (player_area_top_right net court isLeft)
  let anim := if |vlen (vsub final_pos s.pos)| > 0.1 then
      (if charging then PlayerAnimation.Walking else PlayerAnimation.Running)
    else PlayerAnimation.Idle
  { movement := { s.movement with
      easing_time := move_player_easing_time dt s.movement,
      last_non_zero_raw_dir :=
        if s.movement.raw_dir ≠ (((0 : ℝ), (0 : ℝ)) : Vec2) then s.movement.raw_dir
        else s.movement.last_non_zero_raw_dir },
    pos := final_pos,
    anim := anim }

/-- The `move_player` system as seen by one player entity: the query carries
a `Without<Inactive>` filter, so a player holding the `Inactive` marker is
not iterated and keeps its state. -/
def move_player_sys (inactive : Bool) (dt net : ℝ) (court : CourtSettings)
    (id : ℕ) (swingStatus : PlayerActionStatus) (s : MoveState) : MoveState :=
  if inactive then s else move_player dt net court id swingStatus s

/-! ## Aim controller (`aim`) -/

/-- The state of one aim entity: the `PlayerAim` component (raw input and
derived clamped direction) together with the aim transform rotation, which
is always a `Z`-rotation and is embedded as its angle. -/
structure AimState where
  raw_dir : Vec2
  dir : Vec2
  rot : ℝ

/-- One `aim` step for one aim entity whose parent player (side sign `sign`)
was found by the filtered player query.  Follows `aim` in `player.rs`:
normalise the raw input and skip on zero; redirect an exactly-backward input
to straight forward, otherwise clamp into the per-side cone; rotate the aim
transform toward the target rotation at `260°/s` scaled by input magnitude
and delta time, snapping when within one frame's budget; recompute the
stored direction from the resulting rotation.  The update of the face
sprite's visual heading mutates a child entity's transform only and is not
part of this state. -/
def aim (dt sign : ℝ) (s : AimState) : AimState :=
  let dir0 := normalize_or_zero s.raw_dir
  if dir0 = (((0 : ℝ), (0 : ℝ)) : Vec2) then s
  else
    let clamp_x : ℝ := 1
    let clamp_y : ℝ := 0.75
    let dir := if dir0 = ((sign, (0 : ℝ)) : Vec2) then ((-sign, (0 : ℝ)) : Vec2)
      else if sign < 0 then vclamp dir0 (clamp_x, -clamp_y) (clamp_x, clamp_y)
      else vclamp dir0 (-clamp_x, -clamp_y) (-clamp_x, clamp_y)
    let target_rotation := -(angle_between dir ((0 : ℝ), (1 : ℝ)))
    let limit := 260 * (Real.pi / 180) * dt * vlen s.raw_dir
    let rot := if quat_angle_between target_rotation s.rot ≤ limit then
        -(angle_between dir ((0 : ℝ), (1 : ℝ)))
      else
        s.rot + (if euler_z target_rotation > euler_z s.rot then limit else -limit)
    let clamped_dir := rot_vec rot ((0 : ℝ), (1 : ℝ))
    { s with dir := clamped_dir, rot := rot }

/-- The `aim` system as seen by one aim entity: the parent player is fetched
through a query with a `Without<Inactive>` filter, so when the parent player
carries the `Inactive` marker the lookup fails and the aim state is left
untouched. -/
def aim_sys (parentInactive : Bool) (dt sign : ℝ) (s : AimState) : AimState :=
  if parentInactive then s else aim dt sign s

/-! ## Swing and collision resolver (`handle_ball_swing_collisions`) -/

/-- The fields of the `Ball` component read and written by
`handle_ball_swing_collisions`; `bounce_e` is the `Option<Entity>` reference
to the ball's bounce entity. -/
structure Ball where
  dir : Vec2
  speed : ℝ
  predicted_bounce_pos : Vec2
  bounce_e : Option ℕ

/-- One entry of the ball query: entity id, `Ball` and `BallStatus`
components, and the `xy` of the ball transform translation. -/
structure BallEntry where
  e : ℕ
  ball : Ball
  status : BallStatus
  pos : Vec2

/-- The `BallBounce` component. -/
structure BallBounce where
  height : ℝ
  target_height : ℝ
  gravity_mult : ℝ

/-- One entry of the bounce query: the `BallBounce` component together with
the bounce entity's local transform `y` and global transform `xy`. -/
structure BounceEntry where
  bounce : BallBounce
  local_y : ℝ
  global_pos : Vec2

/-- Lookup of a bounce entity in the bounce query, modelling
`ball_bounce_q.get_mut(e)`. -/
def lookupBounce (l : List (ℕ × BounceEntry)) (e : ℕ) : Option BounceEntry :=
  (l.find? (fun p => p.1 == e)).map (·.2)

/-- Pointwise update of the stored `BallBounce` of entity `e`. -/
def updateBounce (l : List (ℕ × BounceEntry)) (e : ℕ) (v : BounceEntry) :
    List (ℕ × BounceEntry) :=
  l.map (fun p => if p.1 == e then (e, v) else p)

/-- The `PlayerSwinging` component inserted when a swing resolves. -/
structure PlayerSwinging where
  movement_speed : ℝ
  movement_dir : Vec2
  initial_jump_vel : ℝ
  current_jump_vel : ℝ

/-- The player data used by `handle_ball_swing_collisions`: id, transform
translation `xy`, and whether the entity carries the `Inactive` marker
(which the query filters out). -/
structure SwingPlayer where
  id : ℕ
  pos : Vec2
  inactive : Bool

/-- Everything a registered hit writes, following the hit branch of
`handle_ball_swing_collisions` (lines 557 to 677 of `player.rs`). -/
structure HitOut where
  ball : Ball
  status : BallStatus
  bounce : BallBounce
  swinging : PlayerSwinging

/-- The full per-ball hit computation of `handle_ball_swing_collisions`:
jump reaction parameters, new ball direction and speed (min/max lerp by
normalised charge strength plus a carried-over fraction of the prior speed,
capped), target distance, gravity multiplier, new bounce apex height
(clamped), predicted landing position, and the status transition (a volleyed
serve or an ongoing rally is re-tagged to the hitter). -/
def swing_hit (c : BallConsts) (net : ℝ) (court : CourtSettings)
    (pid : ℕ) (ppos aimDir : Vec2) (strength : ℝ)
    (b : BallEntry) (bn : BounceEntry) : HitOut :=
  let ball_delta := vsub b.pos ppos
  let ball_dist := vlen ball_delta
  let dir_to_ball := vnormalize ball_delta
  let jump_height := max bn.local_y PLAYER_JUMP_HEIGHT_MIN
  let jump_dur := jump_height /
    (PLAYER_JUMP_VEL_BASE * (inverse_lerp PLAYER_JUMP_HEIGHT_MIN 300 jump_height + 1))
  let jump_vel := jump_dur * -PLAYER_GRAVITY
  let invert_jump := ball_dist - PLAYER_SWING_DISTANCE > 0
  let jdir := if invert_jump then dir_to_ball else vneg dir_to_ball
  let jump_dist := if invert_jump then PLAYER_SWING_DISTANCE * 2
    else |ball_dist - PLAYER_SWING_DISTANCE| * 2
  let swinging : PlayerSwinging :=
    { movement_speed := jump_dist / (jump_dur * 2), movement_dir := jdir,
      initial_jump_vel := jump_vel, current_jump_vel := jump_vel }
  let ballDir := vnormalize aimDir
  let strengthN := inverse_lerp 0.1 1 strength
  let carry_over_vel := b.ball.speed * 0.125 *
    inverse_lerp (c.ballMinSpeed / 2) (c.ballMinSpeed * 2) b.ball.speed
  let speedN := min (lerp c.ballMinSpeed c.ballMaxSpeed strengthN + carry_over_vel)
    c.ballMaxSpeed
  let overall_strength := inverse_lerp c.ballMinSpeed c.ballMaxSpeed speedN
  let angle := angle_between (vscale (player_sign pid) ((-1 : ℝ), (0 : ℝ))) ballDir
  let height_mult := min (inverse_lerp 0 c.ballMaxHeight bn.bounce.height) 1
  let net_offset := lerp c.targetXOffset (c.targetXOffset / 2) height_mult
  let min_x := if is_left_player_id pid then net + net_offset else net - net_offset
  let min_a := |min_x - b.pos.1|
  let min_dist := max (min_a / Real.cos angle) c.ballMinDistance
  let net_t := inverse_lerp court.right 0 |b.pos.1 - net|
  let dist_t := rclamp (overall_strength - height_mult * 0.25 - net_t * 0.25) 0 1
  let dist := lerp min_dist (court.right * 2.25) dist_t
  let time := dist / speedN
  let time_apex := time / 2
  let gravity_mult := inverse_lerp c.ballMinSpeed c.ballMaxSpeed speedN * 1 + 1
  let final_grav := c.ballGravity * gravity_mult
  let heightN := rclamp (-final_grav * time_apex) c.ballMinHeight c.ballMaxHeight
  let final_time := heightN / -final_grav
  let final_dist := final_time * speedN * 2
  let predicted := vadd b.pos (vscale final_dist ballDir)
  { ball := { b.ball with
      dir := ballDir
      speed := speedN
      predicted_bounce_pos := predicted },
    status := match b.status with
      | .serve _ _ player_id => if player_id ≠ pid then .rally pid else b.status
      | .rally _ => .rally pid
      | st => st,
    bounce := { bn.bounce with
      gravity_mult := gravity_mult
      height := heightN
      target_height := heightN },
    swinging := swinging }

/-- The accumulator threaded through the ball loop of
`handle_ball_swing_collisions`. -/
structure SwingLoopAcc where
  swing : PlayerSwing
  anim : PlayerAnimation
  swinging : Option PlayerSwinging
  inactive_inserted : Bool
  ballsDone : List BallEntry
  bounces : List (ℕ × BounceEntry)
  events : List BallHitEvt
  missed : Bool

/-- The ball loop of `handle_ball_swing_collisions` (lines 543 to 680 of
`player.rs`): for each ball, `ball.bounce_e.unwrap()` panics when the
reference is unset (embedded as `Except.error`); a failing bounce-query
lookup skips the ball; a ball whose distance (or bounce-indicator distance)
is below the contact radius registers a hit.  The loop has no early exit, so
every in-range ball is processed. -/
def swing_loop (c : BallConsts) (net : ℝ) (court : CourtSettings)
    (pid : ℕ) (ppos aimDir : Vec2) (strength : ℝ) :
    List BallEntry → SwingLoopAcc → Except Unit SwingLoopAcc
  | [], acc => .ok acc
  | b :: rest, acc =>
    match b.ball.bounce_e with
    | none => .error ()
    | some be =>
      match lookupBounce acc.bounces be with
      | none => swing_loop c net court pid ppos aimDir strength rest
          { acc with ballsDone := acc.ballsDone ++ [b] }
      | some bn =>
        let ball_delta := vsub b.pos ppos
        let ball_dist := vlen ball_delta
        let ball_bounce_dist := vlen (vsub bn.global_pos ppos)
        if min ball_dist ball_bounce_dist < AIM_RING_RADIUS + c.ballSize * 0.65 then
          let h := swing_hit c net court pid ppos aimDir strength b bn
          swing_loop c net court pid ppos aimDir strength rest
            { swing := acc.swing.start_cooldown,
              anim := PlayerAnimation.Swinging,
              swinging := some h.swinging,
              inactive_inserted := true,
              ballsDone := acc.ballsDone ++ [{ b with ball := h.ball, status := h.status }],
              bounces := updateBounce acc.bounces be { bn with bounce := h.bounce },
              events := acc.events ++ [⟨b.e, pid⟩],
              missed := false }
        else swing_loop c net court pid ppos aimDir strength rest
          { acc with ballsDone := acc.ballsDone ++ [b] }

/-- Result of one `handle_ball_swing_collisions` step for one player:
the swing and animation state, the inserted components (`PlayerSwinging`
and the `Inactive` marker), the updated ball and bounce stores, and the
emitted hit notifications. -/
structure SwingSysResult where
  swing : PlayerSwing
  anim : PlayerAnimation
  swinging : Option PlayerSwinging
  inactive_inserted : Bool
  balls : List BallEntry
  bounces : List (ℕ × BounceEntry)
  events : List BallHitEvt

/-- The unchanged result of a `handle_ball_swing_collisions` step that did
no work for this player. -/
def swingSysUnchanged (swing : PlayerSwing) (anim : PlayerAnimation)
    (balls : List BallEntry) (bounces : List (ℕ × BounceEntry)) : SwingSysResult :=
  { swing := swing, anim := anim, swinging := none, inactive_inserted := false,
    balls := balls, bounces := bounces, events := [] }

/-- One `handle_ball_swing_collisions` step for one player.  The player query
filters `Without<Inactive>`; the aim component is fetched fallibly
(`player_aim_q.get`, embedded as an `Option`); only an `Active` swing does
work; the ball loop runs only while the swing timer has not finished; if no
ball was hit the miss path still consumes the swing and inserts the fallback
jump/dash. -/
def handle_ball_swing_collisions (c : BallConsts) (net : ℝ) (court : CourtSettings)
    (p : SwingPlayer) (aimOpt : Option Vec2) (swing : PlayerSwing)
    (anim : PlayerAnimation) (raw_move_dir : Vec2)
    (balls : List BallEntry) (bounces : List (ℕ × BounceEntry)) :
    Except Unit SwingSysResult :=
  if p.inactive then .ok (swingSysUnchanged swing anim balls bounces)
  else
    match aimOpt with
    | none => .ok (swingSysUnchanged swing anim balls bounces)
    | some aimDir =>
      match swing.status with
      | .active strength =>
        let acc0 : SwingLoopAcc :=
          { swing := swing, anim := anim, swinging := none,
            inactive_inserted := false, ballsDone := [], bounces := bounces,
            events := [], missed := true }
        match (if swing.timerFinished then .ok { acc0 with ballsDone := balls }
            else swing_loop c net court p.id p.pos aimDir strength balls acc0) with
        | .error e => .error e
        | .ok acc =>
          if acc.missed then
            let dist := PLAYER_SWING_DISTANCE * 2
            .ok {
              swing := acc.swing.start_cooldown
              anim := PlayerAnimation.Swinging
              swinging := some
                { movement_speed := dist /
                    ((PLAYER_JUMP_HEIGHT_MIN / PLAYER_JUMP_VEL_BASE) * 2)
                  movement_dir :=
                    if raw_move_dir ≠ (((0 : ℝ), (0 : ℝ)) : Vec2) then
                      vnormalize raw_move_dir
                    else aimDir
                  initial_jump_vel := PLAYER_JUMP_VEL_BASE
                  current_jump_vel := PLAYER_JUMP_VEL_BASE }
              inactive_inserted := true
              balls := acc.ballsDone
              bounces := acc.bounces
              events := acc.events }
          else
            .ok {
              swing := acc.swing
              anim := acc.anim
              swinging := acc.swinging
              inactive_inserted := acc.inactive_inserted
              balls := acc.ballsDone
              bounces := acc.bounces
              events := acc.events }
      | _ => .ok (swingSysUnchanged swing anim balls bounces)

/-! ## Jump/swing reaction (`swing`) -/

/-- The per-player state of the `swing` system: the player transform, the
jump child transform (vertical offset and squash/stretch scale), the
`PlayerSwinging` component, the movement fields it rewrites on landing, the
animation tag, and the presence of the two transient markers it removes. -/
structure SwingingSysState where
  pos : Vec2
  jump_y : ℝ
  jump_scale : Vec2
  swinging : PlayerSwinging
  raw_dir : Vec2
  easing_time : ℝ
  last_non_zero_raw_dir : Vec2
  anim : PlayerAnimation
  has_swinging : Bool
  inactive : Bool

/-- One `swing` step for one player that carries `PlayerSwinging`, with the
jump child transform found.  Follows `swing` in `player.rs`: dash the player
laterally (clamped at the net by side), derive the squash/stretch scale from
the jump velocity, integrate the jump arc, and on the vertical position
reaching or crossing the ground plane clamp to ground, force the easing to
fully eased, zero the raw input, remember the dash direction as the last
non-zero heading, set the Landing animation and remove `PlayerSwinging` and
`Inactive`. -/
def swing_step (dt net : ℝ) (id : ℕ) (s : SwingingSysState) : SwingingSysState :=
  let pos0 := vadd s.pos (vscale dt (vscale s.swinging.movement_speed s.swinging.movement_dir))
  let pos1 : Vec2 := if is_left_player_id id then
      (min pos0.1 (net - PLAYER_SIZE / 2), pos0.2)
    else (max pos0.1 (net + PLAYER_SIZE / 2), pos0.2)
  let current_jump_vel_abs := |s.swinging.current_jump_vel|
  let stretch_vel := s.swinging.initial_jump_vel * 0.8
  let squash_vel := s.swinging.initial_jump_vel * 0.3
  let max_stretch :=
    inverse_lerp 0 (PLAYER_JUMP_VEL_BASE * 2.5) s.swinging.initial_jump_vel * 0.35
  let max_squash := max_stretch / 2
  let stretch := if current_jump_vel_abs > stretch_vel then
      inverse_lerp s.swinging.initial_jump_vel stretch_vel current_jump_vel_abs * max_stretch
    else if current_jump_vel_abs < squash_vel then
      inverse_lerp 0 squash_vel current_jump_vel_abs * (max_squash + max_stretch) - max_squash
    else max_stretch
  let scale : Vec2 := (1 - stretch, 1 + stretch)
  let jump_y1 := s.jump_y + s.swinging.current_jump_vel * dt
  let vel1 := s.swinging.current_jump_vel + PLAYER_GRAVITY * dt
  if jump_y1 ≤ 0 then
    { s with
      pos := pos1, jump_y := 0, jump_scale := scale,
      swinging := { s.swinging with current_jump_vel := vel1 },
      easing_time := 1,
      raw_dir := (((0 : ℝ), (0 : ℝ)) : Vec2),
      last_non_zero_raw_dir := s.swinging.movement_dir,
      anim := PlayerAnimation.Landing,
      has_swinging := false, inactive := false }
  else
    { s with
      pos := pos1, jump_y := jump_y1, jump_scale := scale,
      swinging := { s.swinging with current_jump_vel := vel1 } }

/-- The `swing` system as seen by one player: it only iterates players that
carry `PlayerSwinging`, and the jump child transform is fetched fallibly
(`transform_q.get_mut`), a miss silently skipping the player this tick. -/
def swing_sys (jumpFound : Bool) (dt net : ℝ) (id : ℕ)
    (s : SwingingSysState) : SwingingSysState :=
  if s.has_swinging then (if jumpFound then swing_step dt net id s else s) else s

end

/-! ## Rally outcome resolver (`on_ball_bounced`) — computable embedding

No real arithmetic occurs in `on_ball_bounced`; the `f32` side sign compared
against the bounce side is embedded as a rational so the whole resolver is
executable. -/

/-- The `Player` data used by `on_ball_bounced`: id, the stored side sign,
and whether the entity carries `Inactive` (the query filters inactive
players out). -/
structure BouncePlayer where
  id : ℕ
  side : ℚ
  inactive : Bool
  deriving DecidableEq

/-- The ball data used by `on_ball_bounced`: its status, the region recorded
on the `Ball` component, and the `Option<Entity>` trail reference. -/
structure BounceBall where
  status : BallStatus
  region : CourtRegion
  trail_e : Option ℕ
  deriving DecidableEq

/-- The `BallBouncedEvt` notification: ball entity, landing side sign and
cumulative bounce count. -/
structure BallBouncedEvt where
  ball_e : ℕ
  side : ℚ
  bounce_count : ℕ
  deriving DecidableEq

/-- The loss reason recorded on resolution.  The source uses string literals;
they are embedded as an enumeration. -/
inductive LossReason
  | doubleFault
  | shootingOutOfBounds
  | tooManyBounces
  deriving DecidableEq

/-- The ball spawned for the next serve (`spawn_ball` call): region, carried
fault count and serving player id. -/
structure SpawnedBall where
  region : CourtRegion
  fault_count : ℕ
  player_id : ℕ
  deriving DecidableEq

/-- The observable outcome of `on_ball_bounced` for one bounce notification. -/
structure BounceOut where
  status : Option BallStatus
  res : Option (Option ℕ × ℕ × LossReason)
  awarded : Option Bool
  swapServe : Bool
  serving : CourtRegion
  trailFaded : Bool
  spawned : Option SpawnedBall
  deriving DecidableEq

/-- The unchanged outcome of a bounce notification that resolved nothing. -/
def bounceUnchanged (status : Option BallStatus) (serving : CourtRegion) : BounceOut :=
  { status := status, res := none, awarded := none, swapServe := false,
    serving := serving, trailFaded := false, spawned := none }

/-- One `on_ball_bounced` step for one `BallBouncedEvt`.  `players` is the
full player list (the query filters out `Inactive` holders), `ballOpt` the
fallible lookup of the bounced ball, `entities` the live entity ids (for the
trail lookup), `award` the score collaborator (modelled from the spec: it
receives the point award for the given side and answers whether the serve
side swapped), and `randL`/`randR` the random serve regions the level
collaborator would draw.  Rust `unwrap()` calls are embedded as
`Except.error`: the absent side-owning player on a too-many-bounces rally
bounce, and the unset trail reference of a resolved ball. -/
def on_ball_bounced_event (players : List BouncePlayer) (ballOpt : Option BounceBall)
    (entities : List ℕ) (serving : CourtRegion) (randL randR : CourtRegion)
    (award : Bool → Bool) (ev : BallBouncedEvt) : Except Unit BounceOut :=
  match ballOpt with
  | none => .ok (bounceUnchanged none serving)
  | some ball =>
    let ball_res : Except Unit (Option (Option ℕ × ℕ × LossReason)) :=
      match ball.status with
      | .fault count player_id =>
        let limit := 1
        let losing_player := if count > limit then some player_id else none
        let fault_count := if count > limit then 0 else count
        .ok (some (losing_player, fault_count, .doubleFault))
      | .rally player_id =>
        let bounce_limit := 1
        if ball.region.is_out_of_bounds ∧ ev.bounce_count == 1 then
          .ok (some (some player_id, 0, .shootingOutOfBounds))
        else if ev.bounce_count > bounce_limit then
          match (players.filter (fun p => !p.inactive)).find? (fun p => p.side == ev.side) with
          | some player => .ok (some (some player.id, 0, .tooManyBounces))
          | none => .error ()
        else .ok none
      | .serve _ _ _ => .ok none
      | .used => .ok none
    match ball_res with
    | .error e => .error e
    | .ok none => .ok (bounceUnchanged (some ball.status) serving)
    | .ok (some (losing_player, fault_count, reason)) =>
      let awarded := losing_player.map (fun lp => !is_left_player_id lp)
      let swap_serve := match losing_player with
        | some lp => award (!is_left_player_id lp)
        | none => false
      match ball.trail_e with
      | none => .error ()
      | some trail =>
        let trailFaded := trail ∈ entities
        let servingN := if swap_serve then
            (if serving.is_left then randR else randL)
          else serving
        .ok {
          status := some .used
          res := some (losing_player, fault_count, reason)
          awarded := awarded
          swapServe := swap_serve
          serving := servingN
          trailFaded := trailFaded
          spawned := some ⟨servingN, fault_count, servingN.get_player_id⟩ }

/-! ## General lemmas about the clamp helpers -/

theorem rclamp_mem {x lo hi : ℝ} (h : lo ≤ hi) :
    lo ≤ rclamp x lo hi ∧ rclamp x lo hi ≤ hi :=
  ⟨le_min (le_max_right x lo) h, min_le_right _ _⟩

theorem rclamp_eq_hi {x lo hi : ℝ} (hx : hi ≤ x) (_h : lo ≤ hi) :
    rclamp x lo hi = hi := by
  unfold rclamp
  rw [min_eq_right (le_trans hx (le_max_left x lo))]

theorem rclamp_eq_lo {x lo hi : ℝ} (hx : x ≤ lo) (h : lo ≤ hi) :
    rclamp x lo hi = lo := by
  unfold rclamp
  rw [max_eq_right hx, min_eq_left h]

theorem rclamp_unit_mem (x : ℝ) : 0 ≤ rclamp x 0 1 ∧ rclamp x 0 1 ≤ 1 :=
  rclamp_mem (by norm_num)

/-! ## Angle evaluation lemmas -/

theorem angle_between_X_Y :
    angle_between (((1 : ℝ), (0 : ℝ)) : Vec2) ((0 : ℝ), (1 : ℝ)) = Real.pi / 2 := by
  have h : (⟨(1 : ℝ) * 0 + 0 * 1, (1 : ℝ) * 1 - 0 * 0⟩ : ℂ) = Complex.I := by
    simp [Complex.ext_iff]
  rw [angle_between, h, Complex.arg_I]

theorem angle_between_negX_Y :
    angle_between (((-1 : ℝ), (0 : ℝ)) : Vec2) ((0 : ℝ), (1 : ℝ)) = -(Real.pi / 2) := by
  have h : (⟨(-1 : ℝ) * 0 + 0 * 1, (-1 : ℝ) * 1 - 0 * 0⟩ : ℂ) = -Complex.I := by
    simp [Complex.ext_iff]
  rw [angle_between, h, Complex.arg_neg_I]

theorem quat_angle_between_self (x : ℝ) : quat_angle_between x x = 0 := by
  simp [quat_angle_between]

theorem quat_angle_between_neg_half_pi_zero :
    quat_angle_between (-(Real.pi / 2)) 0 = Real.pi / 2 := by
  have h1 : (-(Real.pi / 2) - 0) / 2 = -(Real.pi / 4) := by ring
  have h2 : Real.cos ((-(Real.pi / 2) - 0) / 2) = Real.sqrt 2 / 2 := by
    rw [h1, Real.cos_neg, Real.cos_pi_div_four]
  rw [quat_angle_between, h2]
  have h3 : Real.sqrt 2 / 2 ≤ 1 := by
    nlinarith [Real.sq_sqrt (by norm_num : (0:ℝ) ≤ 2), Real.sqrt_nonneg 2]
  have h4 : (0:ℝ) ≤ Real.sqrt 2 / 2 := by positivity
  rw [abs_of_nonneg h4, min_eq_left h3, ← Real.cos_pi_div_four,
    Real.arccos_cos (by positivity) (by nlinarith [Real.pi_pos])]
  ring

theorem euler_z_zero : euler_z 0 = 0 := by
  have h : (⟨Real.cos 0, Real.sin 0⟩ : ℂ) = 1 := by
    simp [Complex.ext_iff]
  rw [euler_z, h, Complex.arg_one]

theorem euler_z_neg_half_pi : euler_z (-(Real.pi / 2)) = -(Real.pi / 2) := by
  have h : (⟨Real.cos (-(Real.pi / 2)), Real.sin (-(Real.pi / 2))⟩ : ℂ) = -Complex.I := by
    simp [Complex.ext_iff]
  rw [euler_z, h, Complex.arg_neg_I]

theorem vlen_rot_vec_Y (a : ℝ) : vlen (rot_vec a (((0:ℝ), (1:ℝ)) : Vec2)) = 1 := by
  simp [rot_vec, vlen]

theorem normalize_or_zero_negX :
    normalize_or_zero (((-1 : ℝ), (0 : ℝ)) : Vec2) = ((-1 : ℝ), (0 : ℝ)) := by
  have h : vlen (((-1 : ℝ), (0 : ℝ)) : Vec2) = 1 := by simp [vlen]
  rw [normalize_or_zero, h]
  norm_num [vscale]

/-! ## Claim theorems -/

/-- C4: for every raw input direction, speed and frame delta time, the
position produced by the movement controller lies inside the player's
side-specific rectangular play area (whose width depends on the live net
offset), and continuous input pushing the eased position past a bound leaves
the player exactly on that boundary, never beyond.  The hypotheses say the
play area rectangle is non-degenerate. -/
theorem move_player_pos_in_bounds (dt net : ℝ) (court : CourtSettings) (id : ℕ)
    (st : PlayerActionStatus) (s : MoveState)
    (hx : (player_area_btm_left net court (is_left_player_id id)).1 ≤
      (player_area_top_right net court (is_left_player_id id)).1)
    (hy : (player_area_btm_left net court (is_left_player_id id)).2 ≤
      (player_area_top_right net court (is_left_player_id id)).2) :
    ((player_area_btm_left net court (is_left_player_id id)).1 ≤
        (move_player dt net court id st s).pos.1 ∧
      (move_player dt net court id st s).pos.1 ≤
        (player_area_top_right net court (is_left_player_id id)).1) ∧
    ((player_area_btm_left net court (is_left_player_id id)).2 ≤
        (move_player dt net court id st s).pos.2 ∧
      (move_player dt net court id st s).pos.2 ≤
        (player_area_top_right net court (is_left_player_id id)).2) ∧
    ((player_area_top_right net court (is_left_player_id id)).1 ≤
        (move_player_unclamped dt st.isCharging s.movement s.pos).1 →
      (move_player dt net court id st s).pos.1 =
        (player_area_top_right net court (is_left_player_id id)).1) ∧
    ((move_player_unclamped dt st.isCharging s.movement s.pos).1 ≤
        (player_area_btm_left net court (is_left_player_id id)).1 →
      (move_player dt net court id st s).pos.1 =
        (player_area_btm_left net court (is_left_player_id id)).1) ∧
    ((player_area_top_right net court (is_left_player_id id)).2 ≤
        (move_player_unclamped dt st.isCharging s.movement s.pos).2 →
      (move_player dt net court id st s).pos.2 =
        (player_area_top_right net court (is_left_player_id id)).2) ∧
    ((move_player_unclamped dt st.isCharging s.movement s.pos).2 ≤
        (player_area_btm_left net court (is_left_player_id id)).2 →
      (move_player dt net court id st s).pos.2 =
        (player_area_btm_left net court (is_left_player_id id)).2) := by
  have hpos : (move_player dt net court id st s).pos =
      vclamp (move_player_unclamped dt st.isCharging s.movement s.pos)
        (player_area_btm_left net court (is_left_player_id id))
        (player_area_top_right net court (is_left_player_id id)) := rfl
  rw [hpos]
  unfold vclamp
  refine ⟨⟨?_, ?_⟩, ⟨?_, ?_⟩, ?_, ?_, ?_, ?_⟩
  · exact le_min (le_max_right _ _) hx
  · exact min_le_right _ _
  · exact le_min (le_max_right _ _) hy
  · exact min_le_right _ _
  · intro h; exact rclamp_eq_hi h hx
  · intro h; exact rclamp_eq_lo h hx
  · intro h; exact rclamp_eq_hi h hy
  · intro h; exact rclamp_eq_lo h hy

/-- Witness for C4 at a concrete configuration: a left player in a
`800 × 600` view with the net centred. -/
theorem move_player_pos_in_bounds_witness :
    ((player_area_btm_left 0 ⟨((800 : ℝ), (600 : ℝ)), 400⟩ (is_left_player_id 1)).1 ≤
      (player_area_top_right 0 ⟨((800 : ℝ), (600 : ℝ)), 400⟩ (is_left_player_id 1)).1) ∧
    ((player_area_btm_left 0 ⟨((800 : ℝ), (600 : ℝ)), 400⟩ (is_left_player_id 1)).2 ≤
      (player_area_top_right 0 ⟨((800 : ℝ), (600 : ℝ)), 400⟩ (is_left_player_id 1)).2) ∧
    ((player_area_btm_left 0 ⟨((800 : ℝ), (600 : ℝ)), 400⟩ (is_left_player_id 1)).1 ≤
      (move_player 1 0 ⟨((800 : ℝ), (600 : ℝ)), 400⟩ 1 .idle
        ⟨⟨550, 125, 0, 0.11, ((0 : ℝ), (0 : ℝ)), ((0 : ℝ), (0 : ℝ))⟩,
          ((0 : ℝ), (0 : ℝ)), .Idle⟩).pos.1) := by
  have hx : (player_area_btm_left 0 ⟨((800 : ℝ), (600 : ℝ)), 400⟩ (is_left_player_id 1)).1 ≤
      (player_area_top_right 0 ⟨((800 : ℝ), (600 : ℝ)), 400⟩ (is_left_player_id 1)).1 := by
    norm_num [player_area_btm_left, player_area_top_right, player_area_pos,
      player_half_bounds, player_area_size, vsub, vadd, vscale, PLAYER_SIZE,
      is_left_player_id]
  have hy : (player_area_btm_left 0 ⟨((800 : ℝ), (600 : ℝ)), 400⟩ (is_left_player_id 1)).2 ≤
      (player_area_top_right 0 ⟨((800 : ℝ), (600 : ℝ)), 400⟩ (is_left_player_id 1)).2 := by
    norm_num [player_area_btm_left, player_area_top_right, player_area_pos,
      player_half_bounds, player_area_size, vsub, vadd, vscale, PLAYER_SIZE,
      is_left_player_id]
  exact ⟨hx, hy,
    (move_player_pos_in_bounds 1 0 ⟨((800 : ℝ), (600 : ℝ)), 400⟩ 1 .idle
      ⟨⟨550, 125, 0, 0.11, ((0 : ℝ), (0 : ℝ)), ((0 : ℝ), (0 : ℝ))⟩,
        ((0 : ℝ), (0 : ℝ)), .Idle⟩ hx hy).1.1⟩

/-- C8: for every raw aim input and frame delta time, the clamped aim
direction stored after the aim controller runs has magnitude at most 1.  The
stored direction is the image of the unit vector `Y` under the resulting
rotation (hence of magnitude exactly 1) whenever the input is non-zero, and
persists unchanged on zero input, so the bound is an invariant: it holds
after the run whenever it held before. -/
theorem aim_dir_norm_le_one (dt sign : ℝ) (s : AimState) (h : vlen s.dir ≤ 1) :
    vlen (aim dt sign s).dir ≤ 1 := by
  rw [aim]
  by_cases h0 : normalize_or_zero s.raw_dir = (((0 : ℝ), (0 : ℝ)) : Vec2)
  · rw [if_pos h0]; exact h
  · rw [if_neg h0]
    norm_num [vlen_rot_vec_Y]

/-- Witness for C8: a concrete aim state with unit stored direction and zero
raw input. -/
theorem aim_dir_norm_le_one_witness :
    vlen (((0 : ℝ), (1 : ℝ)) : Vec2) ≤ 1 ∧
    vlen (aim 1 1 ⟨((0 : ℝ), (0 : ℝ)), ((0 : ℝ), (1 : ℝ)), 0⟩).dir ≤ 1 := by
  have h : vlen (((0 : ℝ), (1 : ℝ)) : Vec2) ≤ 1 := by simp [vlen]
  exact ⟨h, aim_dir_norm_le_one 1 1 ⟨((0 : ℝ), (0 : ℝ)), ((0 : ℝ), (1 : ℝ)), 0⟩ h⟩

/-- C7, counterexample: the left player (side sign `-1`) inputs exactly the
pure backward axis `(-1, 0)`, the aim currently points straight up, and the
frame delta time is `1/1000 s`.  The backward input is redirected to the
forward-axis target, but the stored clamped aim direction only rotates
toward it by the frame's rotation budget, so after the tick it is not the
pure forward axis `(1, 0)` — the claim fails as stated. -/
theorem aim_backward_small_dt_cex :
    (aim (1 / 1000) (-1) ⟨((-1 : ℝ), (0 : ℝ)), ((0 : ℝ), (1 : ℝ)), 0⟩).dir ≠
      (((1 : ℝ), (0 : ℝ)) : Vec2) := by
  have hv : vlen (((-1 : ℝ), (0 : ℝ)) : Vec2) = 1 := by simp [vlen]
  rw [aim]
  norm_num [normalize_or_zero_negX, hv, angle_between_X_Y,
    quat_angle_between_neg_half_pi_zero, euler_z_neg_half_pi, euler_z_zero]
  split_ifs with h1 h2
  · exfalso; nlinarith [Real.pi_pos]
  · exfalso; nlinarith [Real.pi_pos]
  · intro hc
    rw [Prod.ext_iff] at hc
    have hcos := hc.2
    simp only [rot_vec] at hcos
    norm_num at hcos
    have hb1 : -(Real.pi / 2) < 260 * (Real.pi / 180) * (1 / 1000) := by
      nlinarith [Real.pi_pos]
    have hb2 : 260 * (Real.pi / 180) * (1 / 1000) < Real.pi / 2 := by
      nlinarith [Real.pi_pos]
    have hpos := Real.cos_pos_of_mem_Ioo (Set.mem_Ioo.mpr ⟨hb1, hb2⟩)
    linarith [hpos, hcos.ge]

/-- C7, amended: when the raw aim input normalises to exactly the pure
backward axis for the player's side, the aim target is forced to the pure
forward axis, and the stored clamped aim direction equals pure forward
whenever the remaining angular distance to that target is within the frame's
rotation budget (the snap case); otherwise it only rotates toward it by the
budget. -/
theorem aim_backward_snaps_forward (dt sign : ℝ) (s : AimState)
    (hsign : sign = 1 ∨ sign = -1)
    (hnorm : normalize_or_zero s.raw_dir = ((sign, (0 : ℝ)) : Vec2))
    (hsnap : quat_angle_between
        (-(angle_between ((-sign, (0 : ℝ)) : Vec2) (((0 : ℝ), (1 : ℝ)) : Vec2))) s.rot ≤
      260 * (Real.pi / 180) * dt * vlen s.raw_dir) :
    (aim dt sign s).dir = ((-sign, (0 : ℝ)) : Vec2) := by
  rcases hsign with h | h <;> subst h
  · rw [aim, hnorm]
    norm_num at hsnap ⊢
    rw [if_pos hsnap]
    rw [angle_between_negX_Y]
    norm_num [rot_vec]
  · rw [aim, hnorm]
    norm_num at hsnap ⊢
    rw [if_pos hsnap]
    rw [angle_between_X_Y]
    norm_num [rot_vec]

/-- Witness for the amended C7: the left player inputs pure backward while
the aim transform already points at the forward target, so the snap
condition holds and the stored direction comes out as pure forward. -/
theorem aim_backward_snaps_forward_witness :
    (((-1 : ℝ)) = 1 ∨ ((-1 : ℝ)) = -1) ∧
    normalize_or_zero (((-1 : ℝ), (0 : ℝ)) : Vec2) = (((-1 : ℝ), (0 : ℝ)) : Vec2) ∧
    quat_angle_between
      (-(angle_between ((-(-1 : ℝ), (0 : ℝ)) : Vec2) (((0 : ℝ), (1 : ℝ)) : Vec2)))
      (-(Real.pi / 2)) ≤
      260 * (Real.pi / 180) * 1 * vlen (((-1 : ℝ), (0 : ℝ)) : Vec2) ∧
    (aim 1 (-1) ⟨((-1 : ℝ), (0 : ℝ)), ((0 : ℝ), (1 : ℝ)), -(Real.pi / 2)⟩).dir =
      ((-(-1 : ℝ), (0 : ℝ)) : Vec2) := by
  have hsign : ((-1 : ℝ)) = 1 ∨ ((-1 : ℝ)) = -1 := by norm_num
  have hnorm : normalize_or_zero (((-1 : ℝ), (0 : ℝ)) : Vec2) =
      (((-1 : ℝ), (0 : ℝ)) : Vec2) := normalize_or_zero_negX
  have ha : angle_between ((-(-1 : ℝ), (0 : ℝ)) : Vec2) (((0 : ℝ), (1 : ℝ)) : Vec2) =
      Real.pi / 2 := by
    norm_num [angle_between_X_Y]
  have hv : vlen (((-1 : ℝ), (0 : ℝ)) : Vec2) = 1 := by simp [vlen]
  have hsnap : quat_angle_between
      (-(angle_between ((-(-1 : ℝ), (0 : ℝ)) : Vec2) (((0 : ℝ), (1 : ℝ)) : Vec2)))
      (-(Real.pi / 2)) ≤
      260 * (Real.pi / 180) * 1 * vlen (((-1 : ℝ), (0 : ℝ)) : Vec2) := by
    rw [ha, quat_angle_between_self, hv]
    positivity
  exact ⟨hsign, hnorm, hsnap,
    aim_backward_snaps_forward 1 (-1)
      ⟨((-1 : ℝ), (0 : ℝ)), ((0 : ℝ), (1 : ℝ)), -(Real.pi / 2)⟩ hsign hnorm hsnap⟩

/-- C2: for every registered hit, the ball's new speed (min/max-lerped by the
normalised charge strength plus a carried-over fraction of the prior speed,
capped) lies within `[BALL_MIN_SPEED, BALL_MAX_SPEED]`, and the new bounce
apex height lies within `[BALL_MIN_HEIGHT, BALL_MAX_HEIGHT]`.  The
hypotheses say the abstract ball constants are sensible: a positive minimum
speed not above the maximum, and ordered height bounds. -/
theorem swing_hit_speed_height_bounds (c : BallConsts) (net : ℝ)
    (court : CourtSettings) (pid : ℕ) (ppos aimDir : Vec2) (strength : ℝ)
    (b : BallEntry) (bn : BounceEntry)
    (hmin : 0 < c.ballMinSpeed) (hspeed : c.ballMinSpeed ≤ c.ballMaxSpeed)
    (hheight : c.ballMinHeight ≤ c.ballMaxHeight) :
    (c.ballMinSpeed ≤ (swing_hit c net court pid ppos aimDir strength b bn).ball.speed ∧
      (swing_hit c net court pid ppos aimDir strength b bn).ball.speed ≤ c.ballMaxSpeed) ∧
    (c.ballMinHeight ≤ (swing_hit c net court pid ppos aimDir strength b bn).bounce.height ∧
      (swing_hit c net court pid ppos aimDir strength b bn).bounce.height ≤ c.ballMaxHeight) := by
  have hcarry : 0 ≤ b.ball.speed * 0.125 *
      inverse_lerp (c.ballMinSpeed / 2) (c.ballMinSpeed * 2) b.ball.speed := by
    rcases le_or_lt 0 b.ball.speed with hs | hs
    · have h1 : 0 ≤ inverse_lerp (c.ballMinSpeed / 2) (c.ballMinSpeed * 2) b.ball.speed :=
        (rclamp_unit_mem _).1
      have h2 : (0:ℝ) ≤ b.ball.speed * 0.125 := by nlinarith
      exact mul_nonneg h2 h1
    · have hzero : inverse_lerp (c.ballMinSpeed / 2) (c.ballMinSpeed * 2) b.ball.speed = 0 := by
        unfold inverse_lerp
        apply rclamp_eq_lo ?_ (by norm_num)
        apply div_nonpos_iff.mpr
        right
        constructor
        · linarith
        · linarith
      rw [hzero]
      nlinarith
  have hsN : (swing_hit c net court pid ppos aimDir strength b bn).ball.speed =
      min (lerp c.ballMinSpeed c.ballMaxSpeed (inverse_lerp 0.1 1 strength) +
        b.ball.speed * 0.125 *
          inverse_lerp (c.ballMinSpeed / 2) (c.ballMinSpeed * 2) b.ball.speed)
        c.ballMaxSpeed := rfl
  constructor
  · rw [hsN]
    constructor
    · apply le_min _ hspeed
      have h1 : 0 ≤ inverse_lerp 0.1 1 strength := (rclamp_unit_mem _).1
      have h2 : lerp c.ballMinSpeed c.ballMaxSpeed (inverse_lerp 0.1 1 strength) =
          c.ballMinSpeed + inverse_lerp 0.1 1 strength * (c.ballMaxSpeed - c.ballMinSpeed) := rfl
      nlinarith [mul_nonneg h1 (sub_nonneg.mpr hspeed)]
    · exact min_le_right _ _
  · exact rclamp_mem hheight

/-- Witness for C2 at concrete constants and a concrete hit. -/
theorem swing_hit_speed_height_bounds_witness :
    ((0 : ℝ) < 100 ∧ (100 : ℝ) ≤ 200 ∧ (10 : ℝ) ≤ 100) ∧
    ((100 : ℝ) ≤ (swing_hit ⟨100, 200, 10, 100, -100, 50, 20, 80⟩ 0
        ⟨((800 : ℝ), (600 : ℝ)), 400⟩ 2 ((0 : ℝ), (0 : ℝ)) ((1 : ℝ), (0 : ℝ)) 1
        ⟨7, ⟨((1 : ℝ), (0 : ℝ)), 0, ((0 : ℝ), (0 : ℝ)), some 3⟩, .rally 1, ((0 : ℝ), (0 : ℝ))⟩
        ⟨⟨0, 0, 1⟩, 0, ((0 : ℝ), (0 : ℝ))⟩).ball.speed ∧
      (swing_hit ⟨100, 200, 10, 100, -100, 50, 20, 80⟩ 0
        ⟨((800 : ℝ), (600 : ℝ)), 400⟩ 2 ((0 : ℝ), (0 : ℝ)) ((1 : ℝ), (0 : ℝ)) 1
        ⟨7, ⟨((1 : ℝ), (0 : ℝ)), 0, ((0 : ℝ), (0 : ℝ)), some 3⟩, .rally 1, ((0 : ℝ), (0 : ℝ))⟩
        ⟨⟨0, 0, 1⟩, 0, ((0 : ℝ), (0 : ℝ))⟩).ball.speed ≤ 200) := by
  refine ⟨⟨by norm_num, by norm_num, by norm_num⟩, ?_⟩
  exact (swing_hit_speed_height_bounds ⟨100, 200, 10, 100, -100, 50, 20, 80⟩ 0
    ⟨((800 : ℝ), (600 : ℝ)), 400⟩ 2 ((0 : ℝ), (0 : ℝ)) ((1 : ℝ), (0 : ℝ)) 1
    ⟨7, ⟨((1 : ℝ), (0 : ℝ)), 0, ((0 : ℝ), (0 : ℝ)), some 3⟩, .rally 1, ((0 : ℝ), (0 : ℝ))⟩
    ⟨⟨0, 0, 1⟩, 0, ((0 : ℝ), (0 : ℝ))⟩ (by norm_num) (by norm_num) (by norm_num)).1

/-- C6: for every airborne player, when the jump transform's vertical
position reaches or crosses the ground plane (the integrated new vertical
position is at most 0), the vertical position is clamped to 0, the raw
movement input is zeroed, the last non-zero heading is set to the dash
direction, the movement easing is forced fully eased, the animation becomes
Landing, and both the transient airborne state (`PlayerSwinging`) and the
control-lockout marker (`Inactive`) are removed. -/
theorem swing_step_landing_restores_control (dt net : ℝ) (id : ℕ)
    (s : SwingingSysState)
    (hland : s.jump_y + s.swinging.current_jump_vel * dt ≤ 0) :
    ((swing_step dt net id s).jump_y = 0) ∧
    ((swing_step dt net id s).raw_dir = (((0 : ℝ), (0 : ℝ)) : Vec2)) ∧
    ((swing_step dt net id s).last_non_zero_raw_dir = s.swinging.movement_dir) ∧
    ((swing_step dt net id s).easing_time = 1) ∧
    ((swing_step dt net id s).anim = PlayerAnimation.Landing) ∧
    ((swing_step dt net id s).has_swinging = false) ∧
    ((swing_step dt net id s).inactive = false) := by
  simp only [swing_step]
  rw [if_pos hland]
  simp

/-- Witness for C6: a falling player one frame from the ground. -/
theorem swing_step_landing_restores_control_witness :
    ((0 : ℝ) + (-1 : ℝ) * 1 ≤ 0) ∧
    ((swing_step 1 0 1
      ⟨((0 : ℝ), (0 : ℝ)), 0, ((1 : ℝ), (1 : ℝ)), ⟨10, ((1 : ℝ), (0 : ℝ)), 400, -1⟩,
        ((1 : ℝ), (1 : ℝ)), 0, ((1 : ℝ), (0 : ℝ)), .Swinging, true, true⟩).has_swinging = false) ∧
    ((swing_step 1 0 1
      ⟨((0 : ℝ), (0 : ℝ)), 0, ((1 : ℝ), (1 : ℝ)), ⟨10, ((1 : ℝ), (0 : ℝ)), 400, -1⟩,
        ((1 : ℝ), (1 : ℝ)), 0, ((1 : ℝ), (0 : ℝ)), .Swinging, true, true⟩).inactive = false) := by
  have h : ((0 : ℝ) + (-1 : ℝ) * 1 ≤ 0) := by norm_num
  have hmain := swing_step_landing_restores_control 1 0 1
    ⟨((0 : ℝ), (0 : ℝ)), 0, ((1 : ℝ), (1 : ℝ)), ⟨10, ((1 : ℝ), (0 : ℝ)), 400, -1⟩,
      ((1 : ℝ), (1 : ℝ)), 0, ((1 : ℝ), (0 : ℝ)), .Swinging, true, true⟩ h
  exact ⟨h, hmain.2.2.2.2.2.1, hmain.2.2.2.2.2.2⟩

/-- C5: when a ball with Fault status bounces, a count above the limit
(constant 1) makes the fault-tagged player (the server) the losing player
and resets the carried fault count of the freshly spawned ball to 0, while a
count at most the limit awards no point to anyone, does not swap serve, and
carries the fault count forward to the spawned ball.  The trail reference
must be set, since the resolution path unwraps it. -/
theorem on_ball_bounced_fault_rules (players : List BouncePlayer) (ball : BounceBall)
    (entities : List ℕ) (serving randL randR : CourtRegion) (award : Bool → Bool)
    (ev : BallBouncedEvt) (count player_id trail : ℕ)
    (hstatus : ball.status = .fault count player_id)
    (htrail : ball.trail_e = some trail) :
    (count > 1 →
      (on_ball_bounced_event players (some ball) entities serving randL randR award ev).map
        (fun r => (r.res, r.spawned.map (fun sp => sp.fault_count))) =
      .ok (some (some player_id, 0, .doubleFault), some 0)) ∧
    (count ≤ 1 →
      (on_ball_bounced_event players (some ball) entities serving randL randR award ev).map
        (fun r => (r.res, r.awarded, r.swapServe, r.spawned.map (fun sp => sp.fault_count))) =
      .ok (some (none, count, .doubleFault), none, false, some count)) := by
  constructor
  · intro hc
    simp [on_ball_bounced_event, hstatus, htrail, hc, Except.map]
  · intro hc
    have hnc : ¬ (count > 1) := not_lt.mpr hc
    simp [on_ball_bounced_event, hstatus, htrail, hnc, Except.map]

/-- Witness for C5: both fault branches at concrete inputs — a double fault
(count 2) and a first fault (count 1). -/
theorem on_ball_bounced_fault_rules_witness :
    (2 > 1) ∧
    ((on_ball_bounced_event [] (some ⟨.fault 2 9, .topRight, some 5⟩) [5]
        .topLeft .bottomLeft .topRight (fun _ => true) ⟨3, 1, 1⟩).map
      (fun r => (r.res, r.spawned.map (fun sp => sp.fault_count))) =
      .ok (some (some 9, 0, .doubleFault), some 0)) ∧
    (1 ≤ 1) ∧
    ((on_ball_bounced_event [] (some ⟨.fault 1 9, .topRight, some 5⟩) [5]
        .topLeft .bottomLeft .topRight (fun _ => true) ⟨3, 1, 1⟩).map
      (fun r => (r.res, r.awarded, r.swapServe, r.spawned.map (fun sp => sp.fault_count))) =
      .ok (some (none, 1, .doubleFault), none, false, some 1)) := by
  refine ⟨by norm_num, ?_, by norm_num, ?_⟩
  · exact (on_ball_bounced_fault_rules [] ⟨.fault 2 9, .topRight, some 5⟩ [5]
      .topLeft .bottomLeft .topRight (fun _ => true) ⟨3, 1, 1⟩ 2 9 5 rfl rfl).1
      (by norm_num)
  · exact (on_ball_bounced_fault_rules [] ⟨.fault 1 9, .topRight, some 5⟩ [5]
      .topLeft .bottomLeft .topRight (fun _ => true) ⟨3, 1, 1⟩ 1 9 5 rfl rfl).2
      (by norm_num)

/-- C3, counterexample: a Rally ball bounces a second time on a side whose
owning player is currently airborne (holds `Inactive`, hence filtered out of
the player query); the `find(..).unwrap()` of `on_ball_bounced` then panics
instead of silently skipping the tick's work. -/
theorem on_ball_bounced_missing_player_panic_cex :
    on_ball_bounced_event [⟨2, 1, true⟩] (some ⟨.rally 2, .topRight, some 5⟩) [5]
      .topRight .topLeft .topRight (fun _ => false) ⟨9, 1, 2⟩ = .error () := rfl

/-- C3, amended: missing lookups reached through fallible query access are
silently skipped for the tick (a bounce notification whose ball is gone, a
ball whose bounce record is not found by the bounce query), but three
lookups are unwrapped and panic when they fail: a ball whose bounce-entity
reference is unset during swing collision, a resolved ball whose
trail-entity reference is unset, and the side-owning active player lookup on
a too-many-bounces rally bounce. -/
theorem missing_lookups_skip_or_panic :
    (∀ (players : List BouncePlayer) (entities : List ℕ)
      (serving randL randR : CourtRegion) (award : Bool → Bool) (ev : BallBouncedEvt),
      on_ball_bounced_event players none entities serving randL randR award ev =
        .ok (bounceUnchanged none serving)) ∧
    (∀ (c : BallConsts) (net : ℝ) (court : CourtSettings) (p : SwingPlayer)
      (aimDir : Vec2) (swing : PlayerSwing) (st : ℝ) (anim : PlayerAnimation)
      (raw : Vec2) (b : BallEntry) (be : ℕ) (bounces : List (ℕ × BounceEntry)),
      p.inactive = false → swing.status = .active st → swing.timerFinished = false →
      b.ball.bounce_e = some be → lookupBounce bounces be = none →
      (handle_ball_swing_collisions c net court p (some aimDir) swing anim raw
        [b] bounces).map (fun r => (r.balls, r.events)) = .ok ([b], [])) ∧
    (∀ (c : BallConsts) (net : ℝ) (court : CourtSettings) (p : SwingPlayer)
      (aimDir : Vec2) (swing : PlayerSwing) (st : ℝ) (anim : PlayerAnimation)
      (raw : Vec2) (b : BallEntry) (bounces : List (ℕ × BounceEntry)),
      p.inactive = false → swing.status = .active st → swing.timerFinished = false →
      b.ball.bounce_e = none →
      handle_ball_swing_collisions c net court p (some aimDir) swing anim raw
        [b] bounces = .error ()) ∧
    (∀ (players : List BouncePlayer) (ball : BounceBall) (entities : List ℕ)
      (serving randL randR : CourtRegion) (award : Bool → Bool)
      (ev : BallBouncedEvt) (pid : ℕ),
      ball.status = .rally pid → ball.region.is_out_of_bounds = false →
      ev.bounce_count > 1 →
      (players.filter (fun p => !p.inactive)).find? (fun p => p.side == ev.side) = none →
      on_ball_bounced_event players (some ball) entities serving randL randR award ev =
        .error ()) ∧
    (∀ (players : List BouncePlayer) (ball : BounceBall) (entities : List ℕ)
      (serving randL randR : CourtRegion) (award : Bool → Bool)
      (ev : BallBouncedEvt) (count pid : ℕ),
      ball.status = .fault count pid → ball.trail_e = none →
      on_ball_bounced_event players (some ball) entities serving randL randR award ev =
        .error ()) := by
  refine ⟨?_, ?_, ?_, ?_, ?_⟩
  · intro players entities serving randL randR award ev
    rfl
  · intro c net court p aimDir swing st anim raw b be bounces hinact hstatus htimer hbe hlook
    simp [handle_ball_swing_collisions, hinact, hstatus, htimer, swing_loop, hbe, hlook,
      Except.map]
  · intro c net court p aimDir swing st anim raw b bounces hinact hstatus htimer hbe
    simp [handle_ball_swing_collisions, hinact, hstatus, htimer, swing_loop, hbe]
  · intro players ball entities serving randL randR award ev pid hstatus hoob hcount hfind
    simp [on_ball_bounced_event, hstatus, hoob, hcount, hfind]
  · intro players ball entities serving randL randR award ev count pid hstatus htrail
    simp [on_ball_bounced_event, hstatus, htrail]

/-- Witness for the amended C3: each of the five cases at a concrete input. -/
theorem missing_lookups_skip_or_panic_witness :
    (on_ball_bounced_event [] none [] .topLeft .topLeft .topRight (fun _ => false)
      ⟨1, 1, 1⟩ = .ok (bounceUnchanged none .topLeft)) ∧
    ((handle_ball_swing_collisions ⟨100, 200, 10, 100, -100, 50, 20, 80⟩ 0
        ⟨((800 : ℝ), (600 : ℝ)), 400⟩ ⟨2, ((0 : ℝ), (0 : ℝ)), false⟩
        (some ((1 : ℝ), (0 : ℝ))) ⟨.active 1, 0.15, 0.35, false⟩ .Idle
        ((0 : ℝ), (0 : ℝ))
        [⟨7, ⟨((1 : ℝ), (0 : ℝ)), 100, ((0 : ℝ), (0 : ℝ)), some 3⟩, .rally 1,
          ((0 : ℝ), (0 : ℝ))⟩] []).map (fun r => (r.balls, r.events)) =
      .ok ([⟨7, ⟨((1 : ℝ), (0 : ℝ)), 100, ((0 : ℝ), (0 : ℝ)), some 3⟩, .rally 1,
        ((0 : ℝ), (0 : ℝ))⟩], [])) ∧
    (handle_ball_swing_collisions ⟨100, 200, 10, 100, -100, 50, 20, 80⟩ 0
        ⟨((800 : ℝ), (600 : ℝ)), 400⟩ ⟨2, ((0 : ℝ), (0 : ℝ)), false⟩
        (some ((1 : ℝ), (0 : ℝ))) ⟨.active 1, 0.15, 0.35, false⟩ .Idle
        ((0 : ℝ), (0 : ℝ))
        [⟨7, ⟨((1 : ℝ), (0 : ℝ)), 100, ((0 : ℝ), (0 : ℝ)), none⟩, .rally 1,
          ((0 : ℝ), (0 : ℝ))⟩] [] = .error ()) ∧
    (on_ball_bounced_event [⟨1, -1, true⟩] (some ⟨.rally 1, .bottomLeft, some 6⟩) [6]
      .bottomLeft .topLeft .topRight (fun _ => true) ⟨4, -1, 3⟩ = .error ()) ∧
    (on_ball_bounced_event [] (some ⟨.fault 1 2, .topRight, none⟩) []
      .topRight .topLeft .topRight (fun _ => true) ⟨4, 1, 1⟩ = .error ()) := by
  refine ⟨?_, ?_, ?_, ?_, ?_⟩
  · exact missing_lookups_skip_or_panic.1 [] [] .topLeft .topLeft .topRight
      (fun _ => false) ⟨1, 1, 1⟩
  · exact missing_lookups_skip_or_panic.2.1 ⟨100, 200, 10, 100, -100, 50, 20, 80⟩ 0
      ⟨((800 : ℝ), (600 : ℝ)), 400⟩ ⟨2, ((0 : ℝ), (0 : ℝ)), false⟩ ((1 : ℝ), (0 : ℝ))
      ⟨.active 1, 0.15, 0.35, false⟩ 1 .Idle ((0 : ℝ), (0 : ℝ))
      ⟨7, ⟨((1 : ℝ), (0 : ℝ)), 100, ((0 : ℝ), (0 : ℝ)), some 3⟩, .rally 1,
        ((0 : ℝ), (0 : ℝ))⟩ 3 [] rfl rfl rfl rfl rfl
  · exact missing_lookups_skip_or_panic.2.2.1 ⟨100, 200, 10, 100, -100, 50, 20, 80⟩ 0
      ⟨((800 : ℝ), (600 : ℝ)), 400⟩ ⟨2, ((0 : ℝ), (0 : ℝ)), false⟩ ((1 : ℝ), (0 : ℝ))
      ⟨.active 1, 0.15, 0.35, false⟩ 1 .Idle ((0 : ℝ), (0 : ℝ))
      ⟨7, ⟨((1 : ℝ), (0 : ℝ)), 100, ((0 : ℝ), (0 : ℝ)), none⟩, .rally 1,
        ((0 : ℝ), (0 : ℝ))⟩ [] rfl rfl rfl rfl
  · exact missing_lookups_skip_or_panic.2.2.2.1 [⟨1, -1, true⟩]
      ⟨.rally 1, .bottomLeft, some 6⟩ [6] .bottomLeft .topLeft .topRight
      (fun _ => true) ⟨4, -1, 3⟩ 1 rfl rfl (by norm_num) rfl
  · exact missing_lookups_skip_or_panic.2.2.2.2 [] ⟨.fault 1 2, .topRight, none⟩ []
      .topRight .topLeft .topRight (fun _ => true) ⟨4, 1, 1⟩ 1 2 rfl rfl

theorem lookupBounce_updateBounce_ne {l : List (ℕ × BounceEntry)} {k1 k2 : ℕ}
    {v : BounceEntry} (h : (k2 == k1) = false) :
    lookupBounce (updateBounce l k1 v) k2 = lookupBounce l k2 := by
  induction l with
  | nil => rfl
  | cons hd tl ih =>
    simp only [updateBounce, List.map_cons, lookupBounce, List.find?] at ih ⊢
    by_cases hk : (hd.1 == k1) = true
    · rw [if_pos hk]
      have h1 : (k1 == k2) = false := by
        rw [Nat.beq_eq_true_eq] at hk
        rw [beq_eq_false_iff_ne] at h ⊢
        omega
      have h2 : (hd.1 == k2) = false := by
        rw [Nat.beq_eq_true_eq] at hk
        rw [beq_eq_false_iff_ne] at h ⊢
        omega
      simp only [h1, h2]
      exact ih
    · rw [if_neg hk]
      by_cases hk2 : (hd.1 == k2) = true
      · simp only [hk2]
      · simp only [Bool.not_eq_true] at hk2
        simp only [hk2]
        exact ih

/-- C1, counterexample: an active, un-elapsed swing with two balls both
inside contact range (both at the player's position).  The ball loop of the
resolver has no early exit, so both balls are processed and two hit
notifications are emitted in the same tick — the claim's "at most one ball
hit per tick, only the first in-range ball is processed" fails. -/
theorem swing_resolver_two_hits_cex :
    (handle_ball_swing_collisions ⟨100, 200, 10, 100, -100, 50, 20, 80⟩ 0
      ⟨((800 : ℝ), (600 : ℝ)), 400⟩ ⟨2, ((0 : ℝ), (0 : ℝ)), false⟩
      (some ((1 : ℝ), (0 : ℝ))) ⟨.active 1, 0.15, 0.35, false⟩ .Idle
      ((0 : ℝ), (0 : ℝ))
      [⟨7, ⟨((1 : ℝ), (0 : ℝ)), 100, ((0 : ℝ), (0 : ℝ)), some 3⟩, .rally 1,
        ((0 : ℝ), (0 : ℝ))⟩,
       ⟨8, ⟨((1 : ℝ), (0 : ℝ)), 100, ((0 : ℝ), (0 : ℝ)), some 4⟩, .rally 1,
        ((0 : ℝ), (0 : ℝ))⟩]
      [(3, ⟨⟨0, 0, 1⟩, 0, ((0 : ℝ), (0 : ℝ))⟩),
       (4, ⟨⟨0, 0, 1⟩, 0, ((0 : ℝ), (0 : ℝ))⟩)]).map
      (fun r => r.events.length) = .ok 2 := by
  have hr : vlen (vsub ((0 : Vec2)) ((0 : Vec2))) < AIM_RING_RADIUS + (20 : ℝ) * 0.65 := by
    norm_num [vlen, vsub, AIM_RING_RADIUS]
  simp [handle_ball_swing_collisions, swing_loop, lookupBounce, updateBounce,
    List.find?, hr, Except.map]

/-- C1, amended: for a player whose swing is Active with an un-elapsed
timer, the resolver does not stop at the first ball found within contact
range — every in-range ball whose bounce record resolves is processed and
registers its own hit, so a player can hit several balls (here: two, in
iteration order) in the same tick. -/
theorem swing_resolver_hits_every_ball_in_range (c : BallConsts) (net : ℝ)
    (court : CourtSettings) (p : SwingPlayer) (aimDir : Vec2) (swing : PlayerSwing)
    (st : ℝ) (anim : PlayerAnimation) (raw : Vec2) (b1 b2 : BallEntry)
    (be1 be2 : ℕ) (bn1 bn2 : BounceEntry) (bounces : List (ℕ × BounceEntry))
    (hinact : p.inactive = false) (hstatus : swing.status = .active st)
    (htimer : swing.timerFinished = false)
    (hbe1 : b1.ball.bounce_e = some be1) (hbe2 : b2.ball.bounce_e = some be2)
    (hne : (be2 == be1) = false)
    (hlook1 : lookupBounce bounces be1 = some bn1)
    (hlook2 : lookupBounce bounces be2 = some bn2)
    (hr1 : min (vlen (vsub b1.pos p.pos)) (vlen (vsub bn1.global_pos p.pos)) <
      AIM_RING_RADIUS + c.ballSize * 0.65)
    (hr2 : min (vlen (vsub b2.pos p.pos)) (vlen (vsub bn2.global_pos p.pos)) <
      AIM_RING_RADIUS + c.ballSize * 0.65) :
    (handle_ball_swing_collisions c net court p (some aimDir) swing anim raw
      [b1, b2] bounces).map (fun r => r.events) = .ok [⟨b1.e, p.id⟩, ⟨b2.e, p.id⟩] := by
  simp [handle_ball_swing_collisions, hinact, hstatus, htimer, swing_loop,
    hbe1, hbe2, hlook1, hlook2, lookupBounce_updateBounce_ne hne, hr1, hr2, Except.map]

/-- Witness for the amended C1: two concrete in-range balls, two hit
notifications. -/
theorem swing_resolver_hits_every_ball_in_range_witness :
    (min (vlen (vsub (((0 : ℝ), (0 : ℝ)) : Vec2) (((0 : ℝ), (0 : ℝ)) : Vec2)))
        (vlen (vsub (((0 : ℝ), (0 : ℝ)) : Vec2) (((0 : ℝ), (0 : ℝ)) : Vec2))) <
      AIM_RING_RADIUS + (20 : ℝ) * 0.65) ∧
    ((handle_ball_swing_collisions ⟨100, 200, 10, 100, -100, 50, 20, 80⟩ 0
      ⟨((800 : ℝ), (600 : ℝ)), 400⟩ ⟨1, ((0 : ℝ), (0 : ℝ)), false⟩
      (some ((1 : ℝ), (0 : ℝ))) ⟨.active 1, 0.15, 0.35, false⟩ .Idle
      ((0 : ℝ), (0 : ℝ))
      [⟨11, ⟨((1 : ℝ), (0 : ℝ)), 100, ((0 : ℝ), (0 : ℝ)), some 5⟩, .rally 2,
        ((0 : ℝ), (0 : ℝ))⟩,
       ⟨12, ⟨((1 : ℝ), (0 : ℝ)), 100, ((0 : ℝ), (0 : ℝ)), some 6⟩, .rally 2,
        ((0 : ℝ), (0 : ℝ))⟩]
      [(5, ⟨⟨0, 0, 1⟩, 0, ((0 : ℝ), (0 : ℝ))⟩),
       (6, ⟨⟨0, 0, 1⟩, 0, ((0 : ℝ), (0 : ℝ))⟩)]).map (fun r => r.events) =
      .ok [⟨11, 1⟩, ⟨12, 1⟩]) := by
  have hr : min (vlen (vsub (((0 : ℝ), (0 : ℝ)) : Vec2) (((0 : ℝ), (0 : ℝ)) : Vec2)))
      (vlen (vsub (((0 : ℝ), (0 : ℝ)) : Vec2) (((0 : ℝ), (0 : ℝ)) : Vec2))) <
      AIM_RING_RADIUS + (20 : ℝ) * 0.65 := by
    norm_num [vlen, vsub, AIM_RING_RADIUS]
  exact ⟨hr, swing_resolver_hits_every_ball_in_range
    ⟨100, 200, 10, 100, -100, 50, 20, 80⟩ 0 ⟨((800 : ℝ), (600 : ℝ)), 400⟩
    ⟨1, ((0 : ℝ), (0 : ℝ)), false⟩ ((1 : ℝ), (0 : ℝ)) ⟨.active 1, 0.15, 0.35, false⟩
    1 .Idle ((0 : ℝ), (0 : ℝ))
    ⟨11, ⟨((1 : ℝ), (0 : ℝ)), 100, ((0 : ℝ), (0 : ℝ)), some 5⟩, .rally 2,
      ((0 : ℝ), (0 : ℝ))⟩
    ⟨12, ⟨((1 : ℝ), (0 : ℝ)), 100, ((0 : ℝ), (0 : ℝ)), some 6⟩, .rally 2,
      ((0 : ℝ), (0 : ℝ))⟩
    5 6 ⟨⟨0, 0, 1⟩, 0, ((0 : ℝ), (0 : ℝ))⟩ ⟨⟨0, 0, 1⟩, 0, ((0 : ℝ), (0 : ℝ))⟩
    [(5, ⟨⟨0, 0, 1⟩, 0, ((0 : ℝ), (0 : ℝ))⟩), (6, ⟨⟨0, 0, 1⟩, 0, ((0 : ℝ), (0 : ℝ))⟩)]
    rfl rfl rfl rfl rfl rfl rfl rfl hr hr⟩

/-- C9: when a player registers a hit on a ball whose status is Serve tagged
with that same player's id (the server volleys their own serve), the ball's
status stays unchanged, while the ball's direction, speed, bounce apex,
gravity multiplier and predicted landing position are still rewritten by the
full hit computation (`swing_hit`), and a hit notification is still
emitted. -/
theorem swing_resolver_own_serve_keeps_status (c : BallConsts) (net : ℝ)
    (court : CourtSettings) (p : SwingPlayer) (aimDir : Vec2) (swing : PlayerSwing)
    (st : ℝ) (anim : PlayerAnimation) (raw : Vec2) (b : BallEntry) (be : ℕ)
    (bn : BounceEntry) (bounces : List (ℕ × BounceEntry)) (r : CourtRegion) (fc : ℕ)
    (hinact : p.inactive = false) (hstatus : swing.status = .active st)
    (htimer : swing.timerFinished = false)
    (hbe : b.ball.bounce_e = some be)
    (hlook : lookupBounce bounces be = some bn)
    (hserve : b.status = .serve r fc p.id)
    (hr : min (vlen (vsub b.pos p.pos)) (vlen (vsub bn.global_pos p.pos)) <
      AIM_RING_RADIUS + c.ballSize * 0.65) :
    (handle_ball_swing_collisions c net court p (some aimDir) swing anim raw
      [b] bounces).map
      (fun res => (res.balls.map (fun x => x.status), res.balls.map (fun x => x.ball),
        res.bounces, res.events)) =
    .ok ([b.status],
      [(swing_hit c net court p.id p.pos aimDir st b bn).ball],
      updateBounce bounces be
        { bn with bounce := (swing_hit c net court p.id p.pos aimDir st b bn).bounce },
      [⟨b.e, p.id⟩]) := by
  have hst : (swing_hit c net court p.id p.pos aimDir st b bn).status = b.status := by
    have heq : (swing_hit c net court p.id p.pos aimDir st b bn).status =
        (match b.status with
          | .serve _ _ player_id => if player_id ≠ p.id then .rally p.id else b.status
          | .rally _ => .rally p.id
          | s => s) := rfl
    rw [heq, hserve]
    simp
  simp [handle_ball_swing_collisions, hinact, hstatus, htimer, swing_loop, hbe, hlook,
    hr, hst, Except.map]

/-- Witness for C9: player 2 volleys their own serve at a concrete state. -/
theorem swing_resolver_own_serve_keeps_status_witness :
    (min (vlen (vsub (((0 : ℝ), (0 : ℝ)) : Vec2) (((0 : ℝ), (0 : ℝ)) : Vec2)))
        (vlen (vsub (((0 : ℝ), (0 : ℝ)) : Vec2) (((0 : ℝ), (0 : ℝ)) : Vec2))) <
      AIM_RING_RADIUS + (20 : ℝ) * 0.65) ∧
    ((handle_ball_swing_collisions ⟨100, 200, 10, 100, -100, 50, 20, 80⟩ 0
      ⟨((800 : ℝ), (600 : ℝ)), 400⟩ ⟨2, ((0 : ℝ), (0 : ℝ)), false⟩
      (some ((1 : ℝ), (0 : ℝ))) ⟨.active 1, 0.15, 0.35, false⟩ .Idle
      ((0 : ℝ), (0 : ℝ))
      [⟨7, ⟨((1 : ℝ), (0 : ℝ)), 100, ((0 : ℝ), (0 : ℝ)), some 3⟩, .serve .topRight 0 2,
        ((0 : ℝ), (0 : ℝ))⟩]
      [(3, ⟨⟨0, 0, 1⟩, 0, ((0 : ℝ), (0 : ℝ))⟩)]).map
      (fun res => (res.balls.map (fun x => x.status), res.balls.map (fun x => x.ball),
        res.bounces, res.events)) =
    .ok ([.serve .topRight 0 2],
      [(swing_hit ⟨100, 200, 10, 100, -100, 50, 20, 80⟩ 0
        ⟨((800 : ℝ), (600 : ℝ)), 400⟩ 2 ((0 : ℝ), (0 : ℝ)) ((1 : ℝ), (0 : ℝ)) 1
        ⟨7, ⟨((1 : ℝ), (0 : ℝ)), 100, ((0 : ℝ), (0 : ℝ)), some 3⟩, .serve .topRight 0 2,
          ((0 : ℝ), (0 : ℝ))⟩ ⟨⟨0, 0, 1⟩, 0, ((0 : ℝ), (0 : ℝ))⟩).ball],
      updateBounce [(3, ⟨⟨0, 0, 1⟩, 0, ((0 : ℝ), (0 : ℝ))⟩)] 3
        { (⟨⟨0, 0, 1⟩, 0, ((0 : ℝ), (0 : ℝ))⟩ : BounceEntry) with
          bounce := (swing_hit ⟨100, 200, 10, 100, -100, 50, 20, 80⟩ 0
            ⟨((800 : ℝ), (600 : ℝ)), 400⟩ 2 ((0 : ℝ), (0 : ℝ)) ((1 : ℝ), (0 : ℝ)) 1
            ⟨7, ⟨((1 : ℝ), (0 : ℝ)), 100, ((0 : ℝ), (0 : ℝ)), some 3⟩,
              .serve .topRight 0 2, ((0 : ℝ), (0 : ℝ))⟩
            ⟨⟨0, 0, 1⟩, 0, ((0 : ℝ), (0 : ℝ))⟩).bounce },
      [⟨7, 2⟩])) := by
  have hr : min (vlen (vsub (((0 : ℝ), (0 : ℝ)) : Vec2) (((0 : ℝ), (0 : ℝ)) : Vec2)))
      (vlen (vsub (((0 : ℝ), (0 : ℝ)) : Vec2) (((0 : ℝ), (0 : ℝ)) : Vec2))) <
      AIM_RING_RADIUS + (20 : ℝ) * 0.65 := by
    norm_num [vlen, vsub, AIM_RING_RADIUS]
  exact ⟨hr, swing_resolver_own_serve_keeps_status
    ⟨100, 200, 10, 100, -100, 50, 20, 80⟩ 0 ⟨((800 : ℝ), (600 : ℝ)), 400⟩
    ⟨2, ((0 : ℝ), (0 : ℝ)), false⟩ ((1 : ℝ), (0 : ℝ)) ⟨.active 1, 0.15, 0.35, false⟩
    1 .Idle ((0 : ℝ), (0 : ℝ))
    ⟨7, ⟨((1 : ℝ), (0 : ℝ)), 100, ((0 : ℝ), (0 : ℝ)), some 3⟩, .serve .topRight 0 2,
      ((0 : ℝ), (0 : ℝ))⟩
    3 ⟨⟨0, 0, 1⟩, 0, ((0 : ℝ), (0 : ℝ))⟩ [(3, ⟨⟨0, 0, 1⟩, 0, ((0 : ℝ), (0 : ℝ))⟩)]
    .topRight 0 rfl rfl rfl rfl rfl rfl hr⟩

/-- C10: while a player carries the `Inactive` (airborne) marker, that
player is skipped entirely by the movement controller, the aim controller,
and the swing and collision resolver: the states are left untouched, no hit
notification is emitted, no `PlayerSwinging` is inserted, and an Active
swing is neither resolved into a hit nor consumed as a miss (its status
stays as it was). -/
theorem inactive_player_skipped (inact : Bool) (dt net sign : ℝ)
    (court : CourtSettings) (id : ℕ) (swingStatus : PlayerActionStatus)
    (ms : MoveState) (sa : AimState) (c : BallConsts) (p : SwingPlayer)
    (aimOpt : Option Vec2) (swing : PlayerSwing) (anim : PlayerAnimation)
    (raw : Vec2) (balls : List BallEntry) (bounces : List (ℕ × BounceEntry))
    (hinact : inact = true) (hp : p.inactive = true) :
    move_player_sys inact dt net court id swingStatus ms = ms ∧
    aim_sys inact dt sign sa = sa ∧
    handle_ball_swing_collisions c net court p aimOpt swing anim raw balls bounces =
      .ok (swingSysUnchanged swing anim balls bounces) := by
  subst hinact
  refine ⟨rfl, rfl, ?_⟩
  simp [handle_ball_swing_collisions, hp]

/-- Witness for C10 at a concrete airborne player. -/
theorem inactive_player_skipped_witness :
    (true = true) ∧
    ((⟨2, ((0 : ℝ), (0 : ℝ)), true⟩ : SwingPlayer).inactive = true) ∧
    (handle_ball_swing_collisions ⟨100, 200, 10, 100, -100, 50, 20, 80⟩ 0
      ⟨((800 : ℝ), (600 : ℝ)), 400⟩ ⟨2, ((0 : ℝ), (0 : ℝ)), true⟩
      (some ((1 : ℝ), (0 : ℝ))) ⟨.active 1, 0.15, 0.35, false⟩ .Idle
      ((0 : ℝ), (0 : ℝ)) [] [] =
      .ok (swingSysUnchanged ⟨.active 1, 0.15, 0.35, false⟩ .Idle [] [])) := by
  refine ⟨rfl, rfl, ?_⟩
  exact (inactive_player_skipped true 1 0 1 ⟨((800 : ℝ), (600 : ℝ)), 400⟩ 1 .idle
    ⟨⟨550, 125, 0, 0.11, ((0 : ℝ), (0 : ℝ)), ((0 : ℝ), (0 : ℝ))⟩, ((0 : ℝ), (0 : ℝ)), .Idle⟩
    ⟨((0 : ℝ), (0 : ℝ)), ((1 : ℝ), (0 : ℝ)), 0⟩ ⟨100, 200, 10, 100, -100, 50, 20, 80⟩
    ⟨2, ((0 : ℝ), (0 : ℝ)), true⟩ (some ((1 : ℝ), (0 : ℝ)))
    ⟨.active 1, 0.15, 0.35, false⟩ .Idle ((0 : ℝ), (0 : ℝ)) [] [] rfl rfl).2.2
